import Mathlib

/-!
Verification of `examples/workflow-example.py` from the content-creator
repository.

The script shells out to an external CLI. We embed:
* `shlexSplit` — Python's `shlex.split` (POSIX mode, `whitespace_split=True`,
  no comment characters), as the state machine of CPython's
  `shlex.read_token`;
* `run_cli_command` — tokenize then execute; the child process is an abstract
  oracle `exec : List String → ExecOutcome` receiving the token list (no
  shell is involved), `check=True` semantics collapse normal and nonzero
  termination into the same captured triple, and any start failure is caught
  and turned into `(-1, "", description)`;
* the example drivers and `main`, as pure functions that record the list of
  `print` calls, the token lists handed to the process-spawning layer, and
  the Python return value.
-/

namespace Workflow

/-- The single-quote character, `'`. -/
def squoteChar : Char := Char.ofNat 39

/-- Membership in `shlex.whitespace = " \t\r\n"`. -/
def shlexIsWs (c : Char) : Bool :=
  c = ' ' || c = '\t' || c = '\r' || c = '\n'

/-- States of CPython's `shlex.read_token` loop in POSIX mode with
`whitespace_split=True`:
whitespace state, accumulating a word, inside single quotes, inside double
quotes, after an escape character seen in word context, after an escape
character seen inside double quotes. -/
inductive ShState where
  | ws
  | word
  | squote
  | dquote
  | escWord
  | escDquote
deriving DecidableEq, Repr

/-- The mutable data of the tokenizer: the token being accumulated (in
reverse), the `quoted` flag (a quote was entered for the current token, so an
empty token is still emitted), and the tokens emitted so far (in reverse). -/
structure ShCfg where
  tok : List Char
  quoted : Bool
  acc : List String
deriving DecidableEq, Repr

/-- Emit the current token: CPython breaks out of the loop when the token is
nonempty or (POSIX) a quote was seen, and returns it. -/
def emitCfg (cfg : ShCfg) : ShCfg :=
  if cfg.tok.isEmpty && !cfg.quoted then cfg
  else ⟨[], false, String.mk cfg.tok.reverse :: cfg.acc⟩

/-- One character of `shlex.read_token`.  Transcribed from CPython
`Lib/shlex.py` with `posix=True`, `whitespace_split=True`,
`commenters=""`, `quotes="'\""`, `escape="\\"`, `escapedquotes="\""`,
`punctuation_chars=""`. -/
def shlexStep (st : ShState) (c : Char) (cfg : ShCfg) : ShState × ShCfg :=
  match st with
  | .ws =>
    if shlexIsWs c then (.ws, cfg)
    else if c = '\\' then (.escWord, cfg)
    else if c = squoteChar then (.squote, { cfg with quoted := true })
    else if c = '"' then (.dquote, { cfg with quoted := true })
    else (.word, { cfg with tok := c :: cfg.tok })
  | .word =>
    if shlexIsWs c then (.ws, emitCfg cfg)
    else if c = squoteChar then (.squote, { cfg with quoted := true })
    else if c = '"' then (.dquote, { cfg with quoted := true })
    else if c = '\\' then (.escWord, cfg)
    else (.word, { cfg with tok := c :: cfg.tok })
  | .squote =>
    if c = squoteChar then (.word, cfg)
    else (.squote, { cfg with tok := c :: cfg.tok })
  | .dquote =>
    if c = '"' then (.word, cfg)
    else if c = '\\' then (.escDquote, cfg)
    else (.dquote, { cfg with tok := c :: cfg.tok })
  | .escWord => (.word, { cfg with tok := c :: cfg.tok })
  | .escDquote =>
    -- in POSIX shells, only the quote itself or the escape character may be
    -- escaped inside double quotes; otherwise the backslash is kept
    if c = '\\' || c = '"' then (.dquote, { cfg with tok := c :: cfg.tok })
    else (.dquote, { cfg with tok := c :: '\\' :: cfg.tok })

/-- Run the tokenizer over a list of characters (no end-of-input handling). -/
def shlexRunP : ShState → List Char → ShCfg → ShState × ShCfg
  | st, [], cfg => (st, cfg)
  | st, c :: cs, cfg =>
    shlexRunP (shlexStep st c cfg).1 cs (shlexStep st c cfg).2

/-- End-of-input handling of `shlex.read_token`: an open quote raises
`ValueError("No closing quotation")`, a dangling escape raises
`ValueError("No escaped character")`, otherwise the pending token (if any)
is emitted. -/
def shlexFinish : ShState → ShCfg → Except String (List String)
  | .ws, cfg => .ok cfg.acc.reverse
  | .word, cfg => .ok (emitCfg cfg).acc.reverse
  | .squote, _ => .error "No closing quotation"
  | .dquote, _ => .error "No closing quotation"
  | .escWord, _ => .error "No escaped character"
  | .escDquote, _ => .error "No escaped character"

/-- `shlex.split(s)`: the token list, or the message of the `ValueError` the
tokenizer raises. -/
def shlexSplit (s : String) : Except String (List String) :=
  shlexFinish (shlexRunP .ws s.data ⟨[], false, []⟩).1
    (shlexRunP .ws s.data ⟨[], false, []⟩).2

/-- Outcome of handing a token list to the process-spawning layer
(`subprocess.run(cmd, capture_output=True, text=True, check=True)`):
either the child ran to termination with a return code and captured
stdout/stderr (`check=True` raises `CalledProcessError` on a nonzero code,
which the source catches and unpacks into the same triple), or the process
could not be started at all and an exception with the given description
(`str(e)`, never empty for these exceptions) was raised. -/
inductive ExecOutcome where
  | completed (returncode : Int) (stdout stderr : String)
  | startFailure (description : String)
deriving DecidableEq, Repr

/-- The triple `run_cli_command` produces from one `ExecOutcome`. -/
def outcomeTriple : ExecOutcome → Int × String × String
  | .completed rc out err => (rc, out, err)
  | .startFailure d => (-1, "", d)

/-- `run_cli_command(command)`: `shlex.split` the string, run the token list
as a child process, and return `(returncode, stdout, stderr)`; every
exception (tokenization failure or start failure) is caught and returned as
`(-1, "", str(e))`. -/
def run_cli_command (exec : List String → ExecOutcome) (command : String) :
    Int × String × String :=
  match shlexSplit command with
  | .error msg => (-1, "", msg)
  | .ok cmd => outcomeTriple (exec cmd)

/-- The token lists a call of `run_cli_command(command)` hands to the
process-spawning layer: none when tokenization fails, exactly one otherwise. -/
def cli_invocations (command : String) : List (List String) :=
  match shlexSplit command with
  | .error _ => []
  | .ok cmd => [cmd]

/-- A line of `n` equals signs, `"=" * n`. -/
def eq_line (n : Nat) : String := String.mk (List.replicate n '=')

/-- The `print` calls of `print_result(result)`. -/
def print_result (result : String) : List String :=
  ["\n" ++ eq_line 50, "任务结果", eq_line 50, result, eq_line 50]

/-- One observed run of a driver: the arguments of its `print` calls in
order, the token lists handed to the process-spawning layer, and the Python
return value (`None` becomes `none`). -/
structure DriverRun where
  output : List String
  invoked : List (List String)
  ret : Option String
deriving DecidableEq, Repr

/-- The `print` calls after `run_cli_command` returns, shared by examples
1–4: on code 0 the success message and `print_result(stdout)`, otherwise the
failure message with the return code, then the stdout and stderr lines when
those strings are nonempty (Python truthiness of `str`). -/
def driver_body (okMsg failMsg : String) (r : Int × String × String) :
    List String :=
  if r.1 = 0 then
    [okMsg] ++ print_result r.2.1
  else
    [failMsg ++ " (返回码: " ++ toString r.1 ++ ")"]
      ++ (if r.2.1 ≠ "" then ["标准输出: " ++ r.2.1] else [])
      ++ (if r.2.2 ≠ "" then ["错误输出: " ++ r.2.2] else [])

/-- The Python return value of examples 1–4: the captured stdout on code 0
(`return stdout`), `None` otherwise (falling off the `else` branch). -/
def driver_ret (r : Int × String × String) : Option String :=
  if r.1 = 0 then some r.2.1 else none

/-- The common shape of examples 1–4: print the header, print the command,
run it, then branch on the return code. -/
def mk_driver (header command okMsg failMsg : String)
    (exec : List String → ExecOutcome) : DriverRun :=
  { output := [header, "执行命令: " ++ command]
      ++ driver_body okMsg failMsg (run_cli_command exec command),
    invoked := cli_invocations command,
    ret := driver_ret (run_cli_command exec command) }

def example1_topic : String := "AI 技术的发展趋势"

def example1_requirements : String :=
  "写一篇关于 AI 技术发展趋势的文章，重点讨论大语言模型"

def example1_keywords : String := "AI,人工智能,技术发展"

/-- The f-string of `example1_create_sync_task`. -/
def example1_command : String :=
  "npm run cli:create -- --topic \"" ++ example1_topic
    ++ "\" --requirements \"" ++ example1_requirements
    ++ "\" --keywords \"" ++ example1_keywords
    ++ "\" --min-words 500 --max-words 1000 --mode sync"

def example2_topic : String := "Web 开发的最佳实践"

def example2_requirements : String :=
  "介绍现代 Web 开发的最佳实践，包括性能优化和安全考虑"

def example2_keywords : String := "Web,前端,性能优化"

/-- The f-string of `example2_create_async_task`. -/
def example2_command : String :=
  "npm run cli:create -- --topic \"" ++ example2_topic
    ++ "\" --requirements \"" ++ example2_requirements
    ++ "\" --keywords \"" ++ example2_keywords
    ++ "\" --min-words 800 --max-words 1200 --mode async"

/-- The f-string of `example3_check_task_status`: the id is interpolated
without surrounding quotes. -/
def example3_command (task_id : String) : String :=
  "npm run cli:status -- --id " ++ task_id

def example4_command : String := "npm run cli:list"

/-- 示例 1: 创建同步任务. -/
def example1_create_sync_task (exec : List String → ExecOutcome) : DriverRun :=
  mk_driver "\n=== 示例 1: 创建同步任务 ===" example1_command
    "✅ 任务创建成功！" "❌ 任务执行失败" exec

/-- 示例 2: 创建异步任务. -/
def example2_create_async_task (exec : List String → ExecOutcome) : DriverRun :=
  mk_driver "\n=== 示例 2: 创建异步任务 ===" example2_command
    "✅ 任务创建成功！" "❌ 任务执行失败" exec

/-- 示例 3: 检查任务状态. -/
def example3_check_task_status (exec : List String → ExecOutcome)
    (task_id : String) : DriverRun :=
  mk_driver "\n=== 示例 3: 检查任务状态 ===" (example3_command task_id)
    "✅ 任务状态查询成功！" "❌ 任务状态查询失败" exec

/-- 示例 4: 列出所有任务. -/
def example4_list_tasks (exec : List String → ExecOutcome) : DriverRun :=
  mk_driver "\n=== 示例 4: 列出所有任务 ===" example4_command
    "✅ 任务列表查询成功！" "❌ 任务列表查询失败" exec

/-- Python truthiness of `tasks_output` in `example5_retry_failed_task`:
`None` and the empty string are falsy. -/
def py_truthy : Option String → Bool
  | none => false
  | some s => !(s == "")

/-- 示例 5: 重试失败的任务.  Prints its header, calls
`example4_list_tasks`, and then only prints: either manual-retry
instructions (when the list result is truthy) or `没有找到任务`.  It never
runs any further command itself. -/
def example5_retry_failed_task (exec : List String → ExecOutcome) :
    DriverRun :=
  let r4 := example4_list_tasks exec
  { output := ["\n=== 示例 5: 重试失败的任务 ==="] ++ r4.output
      ++ (if py_truthy r4.ret then
            ["\n注意: 请手动从任务列表中找到失败的任务ID，然后执行重试",
             "例如: npm run cli:retry -- --id <task-id>"]
          else ["没有找到任务"]),
    invoked := r4.invoked,
    ret := none }

def main_header : List String :=
  ["Content Creator Workflow 使用示例 (Python 版本)", eq_line 60]

def main_run_banner : List String :=
  ["\n✅ 项目环境检查通过", "\n" ++ eq_line 60, "开始运行示例", eq_line 60]

/-- The final summary `main` prints after the examples. -/
def main_summary : List String :=
  ["\n" ++ eq_line 60, "所有示例运行完成！", eq_line 60,
   "\n💡 其他可用命令:",
   "  - 查看任务结果: npm run cli:result -- --id <task-id>",
   "  - 重试失败任务: npm run cli:retry -- --id <task-id>",
   "  - 取消任务: npm run cli:cancel -- --id <task-id>",
   "  - 启动监控面板: npm run monitor"]

/-- `main()`.  `package_json_exists` is `os.path.exists("package.json")` in
the current working directory `cwd`; when the marker file is missing the
function prints the error block (`print("当前目录: ", os.getcwd())` joins
its two arguments with a space) and returns having run nothing.  Otherwise
it runs example 1 then example 4 and prints the summary.  It always returns
`None` normally. -/
def main (package_json_exists : Bool) (cwd : String)
    (exec : List String → ExecOutcome) : DriverRun :=
  if package_json_exists then
    let r1 := example1_create_sync_task exec
    let r4 := example4_list_tasks exec
    { output := main_header ++ main_run_banner ++ r1.output ++ r4.output
        ++ main_summary,
      invoked := r1.invoked ++ r4.invoked,
      ret := none }
  else
    { output := main_header
        ++ ["\n❌ 错误: 请在 Content Creator 项目根目录运行此脚本",
            "当前目录: " ++ " " ++ cwd],
      invoked := [],
      ret := none }

/-- Byte-for-byte containment of `nd` at the head of `hay`. -/
def listLeads : List Char → List Char → Bool
  | [], _ => true
  | _ :: _, [] => false
  | a :: as, b :: bs => a = b && listLeads as bs

/-- Byte-for-byte containment of `nd` anywhere in `hay`. -/
def listHasSub (nd : List Char) : List Char → Bool
  | [] => nd.isEmpty
  | c :: cs => listLeads nd (c :: cs) || listHasSub nd cs

/-- `nd` occurs as a contiguous substring of `s`. -/
def strHasSub (nd s : String) : Bool := listHasSub nd.data s.data

/-- A character that is ordinary for the tokenizer: not shlex whitespace,
not a quote, not the escape character. -/
def plainChar (c : Char) : Bool :=
  !shlexIsWs c && c != squoteChar && c != '"' && c != '\\'

theorem shlexRunP_append (p q : List Char) (st : ShState) (cfg : ShCfg) :
    shlexRunP st (p ++ q) cfg =
      shlexRunP (shlexRunP st p cfg).1 q (shlexRunP st p cfg).2 := by
  induction p generalizing st cfg with
  | nil => rfl
  | cons c cs ih =>
    simp only [List.cons_append, shlexRunP]
    exact ih _ _

theorem shlexSplit_error_msg (s : String) (msg : String)
    (h : shlexSplit s = .error msg) :
    msg = "No closing quotation" ∨ msg = "No escaped character" := by
  unfold shlexSplit at h
  cases hst : (shlexRunP .ws s.data ⟨[], false, []⟩).1 <;>
    rw [hst] at h <;> simp [shlexFinish] at h <;> simp [h]

theorem shlexStep_ws_plain (c : Char) (cfg : ShCfg)
    (h : plainChar c = true) :
    shlexStep .ws c cfg = (.word, { cfg with tok := c :: cfg.tok }) := by
  simp only [plainChar, Bool.and_eq_true, Bool.not_eq_true', bne_iff_ne,
    ne_eq] at h
  simp [shlexStep, h.1.1.1, h.1.1.2, h.1.2, h.2]

theorem shlexStep_word_plain (c : Char) (cfg : ShCfg)
    (h : plainChar c = true) :
    shlexStep .word c cfg = (.word, { cfg with tok := c :: cfg.tok }) := by
  simp only [plainChar, Bool.and_eq_true, Bool.not_eq_true', bne_iff_ne,
    ne_eq] at h
  simp [shlexStep, h.1.1.1, h.1.1.2, h.1.2, h.2]

theorem shlexRunP_word_plain (cs : List Char) (tok : List Char) (q : Bool)
    (acc : List String) (h : ∀ c ∈ cs, plainChar c = true) :
    shlexRunP .word cs ⟨tok, q, acc⟩ = (.word, ⟨cs.reverse ++ tok, q, acc⟩) := by
  induction cs generalizing tok with
  | nil => simp [shlexRunP]
  | cons c cs ih =>
    have hc : plainChar c = true := h c (by simp)
    have hcs : ∀ x ∈ cs, plainChar x = true := fun x hx => h x (by simp [hx])
    simp only [shlexRunP, shlexStep_word_plain c _ hc]
    rw [ih _ hcs]
    simp

theorem status_prefix_run :
    shlexRunP .ws ("npm run cli:status -- --id ").data ⟨[], false, []⟩ =
      (.ws, ⟨[], false, ["--id", "--", "cli:status", "run", "npm"]⟩) := by
  rfl

theorem mk_driver_success (header command okMsg failMsg : String)
    (exec : List String → ExecOutcome) (out err : String)
    (h : run_cli_command exec command = (0, out, err)) :
    (mk_driver header command okMsg failMsg exec).output =
      [header, "执行命令: " ++ command, okMsg, "\n" ++ eq_line 50, "任务结果",
       eq_line 50, out, eq_line 50] := by
  simp [mk_driver, driver_body, print_result, h]

theorem mk_driver_failure (header command okMsg failMsg : String)
    (exec : List String → ExecOutcome) (rc : Int) (out err : String)
    (h : run_cli_command exec command = (rc, out, err)) (hrc : rc ≠ 0) :
    (mk_driver header command okMsg failMsg exec).output =
      [header, "执行命令: " ++ command,
       failMsg ++ " (返回码: " ++ toString rc ++ ")"]
      ++ (if out ≠ "" then ["标准输出: " ++ out] else [])
      ++ (if err ≠ "" then ["错误输出: " ++ err] else []) := by
  simp [mk_driver, driver_body, h, hrc]

theorem mk_driver_ret (header command okMsg failMsg : String)
    (exec : List String → ExecOutcome) (rc : Int) (out err : String)
    (h : run_cli_command exec command = (rc, out, err)) :
    (mk_driver header command okMsg failMsg exec).ret =
      if rc = 0 then some out else none := by
  simp [mk_driver, driver_ret, h]

/-- C1: whenever the process cannot be started at all — the command string
fails to tokenize, or spawning raises an exception whose description
(`str(e)`) is the nonempty message of the raised error — `run_cli_command`
returns `(-1, "", d)` with `d` the nonempty textual description of the
failure. -/
theorem runner_start_failure (exec : List String → ExecOutcome)
    (command : String) :
    (∀ msg, shlexSplit command = .error msg →
        run_cli_command exec command = (-1, "", msg) ∧ msg ≠ "") ∧
    (∀ cmd msg, shlexSplit command = .ok cmd →
        exec cmd = .startFailure msg → msg ≠ "" →
        run_cli_command exec command = (-1, "", msg) ∧ msg ≠ "") := by
  constructor
  · intro msg h
    refine ⟨?_, ?_⟩
    · unfold run_cli_command
      rw [h]
    · rcases shlexSplit_error_msg command msg h with h' | h' <;> simp [h']
  · intro cmd msg h he hmsg
    refine ⟨?_, hmsg⟩
    unfold run_cli_command
    rw [h]
    simp [outcomeTriple, he]

theorem runner_start_failure_witness :
    (run_cli_command (fun _ => .completed 0 "" "") "npm \"x" =
        (-1, "", "No closing quotation") ∧
      "No closing quotation" ≠ "") ∧
    (run_cli_command (fun _ => .startFailure "No such file or directory")
        "npm run cli:list" = (-1, "", "No such file or directory") ∧
      "No such file or directory" ≠ "") :=
  ⟨(runner_start_failure (fun _ => .completed 0 "" "") "npm \"x").1
      "No closing quotation" rfl,
    (runner_start_failure (fun _ => .startFailure "No such file or directory")
        "npm run cli:list").2
      ["npm", "run", "cli:list"] "No such file or directory" rfl rfl
      (by decide)⟩

set_option maxRecDepth 8192 in
/-- C2: `run_cli_command` tokenizes with shell-like word-splitting
(double-quoted substrings become single tokens) and executes exactly the
resulting token sequence — the outcome is a function of the exec layer
applied to the token list, with no shell in between, so quoted shell
metacharacters such as `;`, `|`, `&&` stay literal argument content — and
on the example create-task inputs tokenization yields exactly one argument
token per `--flag value` pair. -/
theorem tokenize_then_exec_no_shell :
    (∀ (exec : List String → ExecOutcome) (command : String)
        (cmd : List String), shlexSplit command = .ok cmd →
        run_cli_command exec command = outcomeTriple (exec cmd)) ∧
    shlexSplit "cmd \"a; b | c && d\"" = .ok ["cmd", "a; b | c && d"] ∧
    shlexSplit example1_command =
      .ok ["npm", "run", "cli:create", "--", "--topic", example1_topic,
           "--requirements", example1_requirements, "--keywords",
           example1_keywords, "--min-words", "500", "--max-words", "1000",
           "--mode", "sync"] := by
  refine ⟨?_, rfl, rfl⟩
  intro exec command cmd h
  unfold run_cli_command
  rw [h]

theorem tokenize_then_exec_no_shell_witness :
    run_cli_command
        (fun args => .completed 0 (String.intercalate "," args) "")
        "npm run cli:list" = (0, "npm,run,cli:list", "") :=
  tokenize_then_exec_no_shell.1
    (fun args => .completed 0 (String.intercalate "," args) "")
    "npm run cli:list" ["npm", "run", "cli:list"] rfl

/-- C3: when the child process starts and terminates — with any return
code, zero or not — `run_cli_command` returns the same triple shape
`(code, stdout, stderr)` without raising: `check=True` raises
`CalledProcessError` on a nonzero code, but the handler unpacks
`e.returncode, e.stdout, e.stderr`, which under `capture_output=True` are
exactly the captured values, so a nonzero code is mere information for the
caller. -/
theorem nonzero_exit_same_triple (exec : List String → ExecOutcome)
    (command : String) (cmd : List String) (rc : Int) (out err : String)
    (hs : shlexSplit command = .ok cmd)
    (he : exec cmd = .completed rc out err) :
    run_cli_command exec command = (rc, out, err) := by
  unfold run_cli_command
  rw [hs]
  simp [outcomeTriple, he]

theorem nonzero_exit_same_triple_witness :
    run_cli_command (fun _ => .completed 2 "partial output" "boom")
      "npm run cli:list" = (2, "partial output", "boom") :=
  nonzero_exit_same_triple (fun _ => .completed 2 "partial output" "boom")
    "npm run cli:list" ["npm", "run", "cli:list"] 2 "partial output" "boom"
    rfl rfl

theorem mk_driver_failure_mem (header command okMsg failMsg : String)
    (exec : List String → ExecOutcome) (rc : Int) (out err : String)
    (h : run_cli_command exec command = (rc, out, err)) (hrc : rc ≠ 0) :
    (failMsg ++ " (返回码: " ++ toString rc ++ ")") ∈
        (mk_driver header command okMsg failMsg exec).output ∧
      (err ≠ "" → ("错误输出: " ++ err) ∈
        (mk_driver header command okMsg failMsg exec).output) := by
  rw [mk_driver_failure header command okMsg failMsg exec rc out err h hrc]
  constructor
  · simp
  · intro herr
    simp [herr]

/-- C4: when the runner reports a nonzero code, each example driver prints
the failure banner carrying that exit code and (when nonempty) a line with
the captured stderr text; the drivers are total functions of the captured
triple, so no exception escapes them. -/
theorem driver_failure_banner (exec : List String → ExecOutcome)
    (task_id : String) :
    (∀ rc out err, run_cli_command exec example1_command = (rc, out, err) →
        rc ≠ 0 →
        ("❌ 任务执行失败 (返回码: " ++ toString rc ++ ")") ∈
            (example1_create_sync_task exec).output ∧
          (err ≠ "" → ("错误输出: " ++ err) ∈
            (example1_create_sync_task exec).output)) ∧
    (∀ rc out err, run_cli_command exec example2_command = (rc, out, err) →
        rc ≠ 0 →
        ("❌ 任务执行失败 (返回码: " ++ toString rc ++ ")") ∈
            (example2_create_async_task exec).output ∧
          (err ≠ "" → ("错误输出: " ++ err) ∈
            (example2_create_async_task exec).output)) ∧
    (∀ rc out err,
        run_cli_command exec (example3_command task_id) = (rc, out, err) →
        rc ≠ 0 →
        ("❌ 任务状态查询失败 (返回码: " ++ toString rc ++ ")") ∈
            (example3_check_task_status exec task_id).output ∧
          (err ≠ "" → ("错误输出: " ++ err) ∈
            (example3_check_task_status exec task_id).output)) ∧
    (∀ rc out err, run_cli_command exec example4_command = (rc, out, err) →
        rc ≠ 0 →
        ("❌ 任务列表查询失败 (返回码: " ++ toString rc ++ ")") ∈
            (example4_list_tasks exec).output ∧
          (err ≠ "" → ("错误输出: " ++ err) ∈
            (example4_list_tasks exec).output)) :=
  ⟨fun rc out err h hrc =>
      mk_driver_failure_mem _ _ _ _ exec rc out err h hrc,
    fun rc out err h hrc =>
      mk_driver_failure_mem _ _ _ _ exec rc out err h hrc,
    fun rc out err h hrc =>
      mk_driver_failure_mem _ _ _ _ exec rc out err h hrc,
    fun rc out err h hrc =>
      mk_driver_failure_mem _ _ _ _ exec rc out err h hrc⟩

theorem driver_failure_banner_witness :
    ("❌ 任务列表查询失败 (返回码: " ++ toString (1 : Int) ++ ")") ∈
        (example4_list_tasks (fun _ => .completed 1 "" "boom")).output ∧
      ("boom" ≠ "" → ("错误输出: " ++ "boom") ∈
        (example4_list_tasks (fun _ => .completed 1 "" "boom")).output) :=
  (driver_failure_banner (fun _ => .completed 1 "" "boom") "t").2.2.2
    1 "" "boom" rfl (by decide)

/-- C5: when the runner reports exit code 0, each example driver prints its
success banner and then the captured stdout, unparsed and unmodified,
framed by the `print_result` lines of fifty equals signs. -/
theorem driver_success_banner (exec : List String → ExecOutcome)
    (task_id : String) :
    (∀ out err, run_cli_command exec example1_command = (0, out, err) →
        (example1_create_sync_task exec).output =
          ["\n=== 示例 1: 创建同步任务 ===",
           "执行命令: " ++ example1_command, "✅ 任务创建成功！",
           "\n" ++ eq_line 50, "任务结果", eq_line 50, out, eq_line 50]) ∧
    (∀ out err, run_cli_command exec example2_command = (0, out, err) →
        (example2_create_async_task exec).output =
          ["\n=== 示例 2: 创建异步任务 ===",
           "执行命令: " ++ example2_command, "✅ 任务创建成功！",
           "\n" ++ eq_line 50, "任务结果", eq_line 50, out, eq_line 50]) ∧
    (∀ out err,
        run_cli_command exec (example3_command task_id) = (0, out, err) →
        (example3_check_task_status exec task_id).output =
          ["\n=== 示例 3: 检查任务状态 ===",
           "执行命令: " ++ example3_command task_id, "✅ 任务状态查询成功！",
           "\n" ++ eq_line 50, "任务结果", eq_line 50, out, eq_line 50]) ∧
    (∀ out err, run_cli_command exec example4_command = (0, out, err) →
        (example4_list_tasks exec).output =
          ["\n=== 示例 4: 列出所有任务 ===",
           "执行命令: " ++ example4_command, "✅ 任务列表查询成功！",
           "\n" ++ eq_line 50, "任务结果", eq_line 50, out, eq_line 50]) :=
  ⟨fun out err h => mk_driver_success _ _ _ _ exec out err h,
    fun out err h => mk_driver_success _ _ _ _ exec out err h,
    fun out err h => mk_driver_success _ _ _ _ exec out err h,
    fun out err h => mk_driver_success _ _ _ _ exec out err h⟩

theorem driver_success_banner_witness :
    (example4_list_tasks (fun _ => .completed 0 "OUT" "")).output =
      ["\n=== 示例 4: 列出所有任务 ===", "执行命令: " ++ example4_command,
       "✅ 任务列表查询成功！", "\n" ++ eq_line 50, "任务结果", eq_line 50,
       "OUT", eq_line 50] :=
  (driver_success_banner (fun _ => .completed 0 "OUT" "") "t").2.2.2
    "OUT" "" rfl

/-- C6: running `main` in a working directory without `package.json` prints
the precondition-failure diagnostic and returns having handed nothing to
the process-spawning layer. -/
theorem main_missing_marker (cwd : String)
    (exec : List String → ExecOutcome) :
    (main false cwd exec).invoked = [] ∧
      "\n❌ 错误: 请在 Content Creator 项目根目录运行此脚本" ∈
        (main false cwd exec).output :=
  ⟨rfl, by simp [main, main_header]⟩

set_option maxRecDepth 8192 in
/-- C7: with the marker file present, `main` hands exactly two commands to
the process-spawning layer — the example-1 create-sync command and then the
list command — its output is the two drivers' output followed by the final
summary of manual commands, and it returns `None` normally whatever the
exec layer does. -/
theorem main_two_examples (cwd : String)
    (exec : List String → ExecOutcome) :
    (main true cwd exec).invoked =
      [["npm", "run", "cli:create", "--", "--topic", example1_topic,
        "--requirements", example1_requirements, "--keywords",
        example1_keywords, "--min-words", "500", "--max-words", "1000",
        "--mode", "sync"],
       ["npm", "run", "cli:list"]] ∧
    (main true cwd exec).output =
      main_header ++ main_run_banner
        ++ (example1_create_sync_task exec).output
        ++ (example4_list_tasks exec).output ++ main_summary ∧
    (main true cwd exec).ret = none :=
  ⟨rfl, rfl, rfl⟩

/-- C8: `example5_retry_failed_task` only re-runs the list driver — its
only invocation is the list command, whose tokens nowhere contain the
string `retry` — and, when the list result is truthy, it merely prints the
instruction telling the operator to retry manually. -/
theorem retry_driver_only_lists (exec : List String → ExecOutcome) :
    (example5_retry_failed_task exec).invoked =
        [["npm", "run", "cli:list"]] ∧
    (∀ args ∈ (example5_retry_failed_task exec).invoked, ∀ tok ∈ args,
        strHasSub "retry" tok = false) ∧
    (py_truthy (example4_list_tasks exec).ret = true →
        "例如: npm run cli:retry -- --id <task-id>" ∈
          (example5_retry_failed_task exec).output) := by
  have hinv : (example5_retry_failed_task exec).invoked =
      [["npm", "run", "cli:list"]] := rfl
  refine ⟨hinv, ?_, ?_⟩
  · rw [hinv]
    decide
  · intro ht
    simp [example5_retry_failed_task, ht]

theorem retry_driver_only_lists_witness :
    "例如: npm run cli:retry -- --id <task-id>" ∈
      (example5_retry_failed_task (fun _ => .completed 0 "tasks" "")).output :=
  (retry_driver_only_lists (fun _ => .completed 0 "tasks" "")).2.2 rfl

/-- C9: examples 1–4 return the captured stdout iff the exit code is 0 and
`None` otherwise, and `example5_retry_failed_task` prints `没有找到任务`
whenever the list result is falsy — in particular when the list command
exits 0 with empty stdout, whose return value `""` is falsy in Python. -/
theorem driver_return_semantics (exec : List String → ExecOutcome)
    (task_id : String) :
    (∀ rc out err, run_cli_command exec example1_command = (rc, out, err) →
        (example1_create_sync_task exec).ret =
          if rc = 0 then some out else none) ∧
    (∀ rc out err, run_cli_command exec example2_command = (rc, out, err) →
        (example2_create_async_task exec).ret =
          if rc = 0 then some out else none) ∧
    (∀ rc out err,
        run_cli_command exec (example3_command task_id) = (rc, out, err) →
        (example3_check_task_status exec task_id).ret =
          if rc = 0 then some out else none) ∧
    (∀ rc out err, run_cli_command exec example4_command = (rc, out, err) →
        (example4_list_tasks exec).ret =
          if rc = 0 then some out else none) ∧
    (py_truthy (example4_list_tasks exec).ret = false →
        "没有找到任务" ∈ (example5_retry_failed_task exec).output) ∧
    (∀ err, run_cli_command exec example4_command = (0, "", err) →
        "没有找到任务" ∈ (example5_retry_failed_task exec).output) := by
  have h4 : ∀ rc out err,
      run_cli_command exec example4_command = (rc, out, err) →
      (example4_list_tasks exec).ret = if rc = 0 then some out else none :=
    fun rc out err h => mk_driver_ret _ _ _ _ exec rc out err h
  have h5 : py_truthy (example4_list_tasks exec).ret = false →
      "没有找到任务" ∈ (example5_retry_failed_task exec).output := by
    intro hf
    simp [example5_retry_failed_task, hf]
  refine ⟨fun rc out err h => mk_driver_ret _ _ _ _ exec rc out err h,
    fun rc out err h => mk_driver_ret _ _ _ _ exec rc out err h,
    fun rc out err h => mk_driver_ret _ _ _ _ exec rc out err h,
    h4, h5, ?_⟩
  intro err h
  have hret : (example4_list_tasks exec).ret = some "" := by
    simpa using h4 0 "" err h
  exact h5 (by rw [hret]; rfl)

set_option maxRecDepth 8192 in
theorem driver_return_semantics_witness :
    (example1_create_sync_task
        (fun _ => .completed 0 "hello" "")).ret = some "hello" ∧
    "没有找到任务" ∈
      (example5_retry_failed_task (fun _ => .completed 0 "" "")).output :=
  ⟨by
    simpa using
      (driver_return_semantics (fun _ => .completed 0 "hello" "") "t").1
        0 "hello" "" rfl,
    (driver_return_semantics (fun _ => .completed 0 "" "") "t").2.2.2.2.2
      "" rfl⟩

set_option maxRecDepth 8192 in
/-- C10 fails as stated: the no-whitespace/no-quote precondition on the
task id is not enough.  The id `a\b` — no whitespace, no quote
characters — tokenizes to the final token `ab`, because the tokenizer
treats the backslash as an escape; and the empty id yields only five
tokens, with no final id token at all. -/
theorem status_tokenization_counterexample :
    ((∀ c ∈ ("a\\b").data,
        shlexIsWs c = false ∧ c ≠ squoteChar ∧ c ≠ '"') ∧
      shlexSplit (example3_command "a\\b") ≠
        .ok ["npm", "run", "cli:status", "--", "--id", "a\\b"]) ∧
    ((∀ c ∈ ("" : String).data,
        shlexIsWs c = false ∧ c ≠ squoteChar ∧ c ≠ '"') ∧
      shlexSplit (example3_command "") ≠
        .ok ["npm", "run", "cli:status", "--", "--id", ""]) := by
  have h1 : shlexSplit (example3_command "a\\b") =
      .ok ["npm", "run", "cli:status", "--", "--id", "ab"] := rfl
  have h2 : shlexSplit (example3_command "") =
      .ok ["npm", "run", "cli:status", "--", "--id"] := rfl
  refine ⟨⟨by decide, ?_⟩, ⟨by decide, ?_⟩⟩
  · rw [h1]
    simp
  · rw [h2]
    simp

set_option maxRecDepth 8192 in
/-- C10 (amended): the status driver interpolates the id without
surrounding quotes, and for every nonempty `task_id` containing no shlex
whitespace (space, tab, CR, LF), no single or double quote, and no
backslash, tokenizing the formatted command yields exactly
`["npm", "run", "cli:status", "--", "--id", task_id]`, the id as a single
final token.  Nothing in the script enforces this precondition. -/
theorem status_tokenization_amended (task_id : String) (hne : task_id ≠ "")
    (hp : ∀ c ∈ task_id.data, plainChar c = true) :
    shlexSplit (example3_command task_id) =
      .ok ["npm", "run", "cli:status", "--", "--id", task_id] := by
  obtain ⟨l⟩ := task_id
  have hl : l ≠ [] := fun h => hne (by rw [h])
  obtain ⟨c, cs, rfl⟩ : ∃ c cs, l = c :: cs := by
    cases l with
    | nil => exact absurd rfl hl
    | cons c cs => exact ⟨c, cs, rfl⟩
  have hc : plainChar c = true := hp c (List.mem_cons_self c cs)
  have hcs : ∀ x ∈ cs, plainChar x = true :=
    fun x hx => hp x (List.mem_cons_of_mem c hx)
  have hdata : (("npm run cli:status -- --id " : String)
      ++ String.mk (c :: cs)).data =
      ("npm run cli:status -- --id " : String).data ++ (c :: cs) := rfl
  have hrun : shlexRunP .ws (c :: cs)
      ⟨[], false, ["--id", "--", "cli:status", "run", "npm"]⟩ =
      (.word, ⟨cs.reverse ++ [c], false,
        ["--id", "--", "cli:status", "run", "npm"]⟩) := by
    simp only [shlexRunP, shlexStep_ws_plain c _ hc]
    exact shlexRunP_word_plain cs [c] false _ hcs
  unfold shlexSplit example3_command
  rw [hdata, shlexRunP_append, status_prefix_run]
  simp only [hrun, shlexFinish, emitCfg]
  simp

theorem status_tokenization_amended_witness :
    shlexSplit (example3_command "abc-123") =
      .ok ["npm", "run", "cli:status", "--", "--id", "abc-123"] :=
  status_tokenization_amended "abc-123" (by decide) (by decide)

end Workflow

